import Mathlib

/-!
Shallow embedding of the `solana_swap` client (rpc_pool.py, token_utils.py,
jupiter_client.py, session.py) and proofs about its published specification.

Python `float` values are modelled exactly as rationals: every IEEE-754
binary64 number is a rational, and each arithmetic operation rounds the exact
rational result to the nearest representable value (round half to even,
53-bit significand; exponent overflow/subnormals do not occur in the ranges
used by any claim and are not modelled).
-/

set_option allowUnsafeReducibility true
attribute [semireducible] Rat.mul Rat.inv Rat.add Rat.sub Rat.ofScientific

/-! ## Exact model of IEEE-754 binary64 arithmetic on rationals -/

/-- Bit length of a natural number, with explicit fuel so that the kernel can
evaluate it on literals (`bitsAux n n` recurses at most `log2 n + 1` times). -/
def bitsAux : Nat → Nat → Nat
  | 0, _ => 0
  | fuel + 1, n => if n = 0 then 0 else bitsAux fuel (n / 2) + 1

/-- Bit length: number of binary digits of `n` (0 for 0). -/
def bits (n : Nat) : Nat := bitsAux n n

/-- For a positive rational `q`, the exponent `t` with `2 ^ (t - 1) ≤ q < 2 ^ t`. -/
def ratMsb (q : ℚ) : ℤ :=
  let n := q.num.toNat
  let d := q.den
  let t0 : ℤ := (bits n : ℤ) - (bits d : ℤ)
  let big : Bool :=
    if 0 ≤ t0 then decide (d * 2 ^ t0.toNat ≤ n) else decide (d ≤ n * 2 ^ (-t0).toNat)
  if big then t0 + 1 else t0

/-- Floor of a rational, as an integer. -/
def qfloor (q : ℚ) : ℤ := Int.fdiv q.num (q.den : ℤ)

/-- Truncation toward zero, the semantics of Python `int()` on a float. -/
def qtrunc (q : ℚ) : ℤ := Int.tdiv q.num (q.den : ℤ)

/-- Round a positive rational to the nearest binary64-representable rational
(53-bit significand, ties to even). -/
def roundPos (q : ℚ) : ℚ :=
  let e : ℤ := ratMsb q - 53
  let scaled : ℚ := if 0 ≤ e then q / ((2 : ℚ) ^ e.toNat) else q * ((2 : ℚ) ^ (-e).toNat)
  let m0 : ℤ := qfloor scaled
  let frac : ℚ := scaled - (m0 : ℚ)
  let m : ℤ :=
    if frac < 1 / 2 then m0
    else if 1 / 2 < frac then m0 + 1
    else if m0 % 2 = 0 then m0 else m0 + 1
  if 0 ≤ e then (m : ℚ) * (2 : ℚ) ^ e.toNat else (m : ℚ) / ((2 : ℚ) ^ (-e).toNat)

/-- Round an exact rational to the nearest binary64 value. -/
def roundDouble (q : ℚ) : ℚ :=
  if q = 0 then 0 else if 0 < q then roundPos q else -roundPos (-q)

/-- Python float multiplication: exact product, then one rounding. -/
def floatMul (a b : ℚ) : ℚ := roundDouble (a * b)

/-- Python float division: exact quotient, then one rounding. -/
def floatDiv (a b : ℚ) : ℚ := roundDouble (a / b)

/-- Python float addition: exact sum, then one rounding. -/
def floatAdd (a b : ℚ) : ℚ := roundDouble (a + b)

/-- Conversion of a Python int to float (rounds when the int needs > 53 bits). -/
def floatOfNat (n : Nat) : ℚ := roundDouble (n : ℚ)

/-- session.py line 60: `lamports = int(src_ui * 10 ** await self.decimals(src))`.
`src_ui` is a Python float, `10 ** dec` a Python int that is converted to float
for the multiplication; `int()` truncates toward zero. -/
def uiToBase (srcUi : ℚ) (dec : Nat) : ℤ :=
  qtrunc (floatMul srcUi (floatOfNat (10 ^ dec)))

/-! ## token_utils.py — decimal discovery (TokenTools) -/

/-- The two `AsyncClient` handles owned by `RpcPool`. -/
inductive Handle
  | primary
  | backup
  deriving DecidableEq, Repr

/-- The four fallback strategies of `TokenTools._discover_decimals`. -/
inductive Strategy
  | supply       -- get_token_supply
  | parsed       -- get_account_info(encoding jsonParsed)
  | rawLayout    -- get_account_info, raw base64 data, byte at DEC_OFFSET
  | staticTable  -- STATIC_DEC lookup
  deriving DecidableEq, Repr

/-- One attempt of the chain: which strategy against which handle
(the static table touches no handle). -/
abbrev Attempt := Strategy × Option Handle

/-- What each RPC access would observe, per handle.  `none` collapses the
transport exception, the falsy `r.value` and the parse failure cases: all of
them make the chain advance.  For the raw layout the whole decoded byte string
is kept, since the code indexes into it. -/
structure DiscoveryEnv where
  tokenSupply : Handle → Option Nat
  parsedInfo : Handle → Option Nat
  rawData : Handle → Option (List Nat)

/-- token_utils.py: `DEC_OFFSET = 44` (SPL-Mint u8 decimals offset). -/
def DEC_OFFSET : Nat := 44

/-- token_utils.py: `STATIC_DEC` static mint→decimals table. -/
def STATIC_DEC : List (String × Nat) :=
  [("EPjFWdd5AufqSSqeM2qcxkEzY6BpyHQzdDrRmqw5yHq3", 6),
   ("3NZ9JMVBmGAqocybic2c7LQCJScmgsAZ6vQqTDzcqmJh", 8)]

/-- Outcome of a single attempt of the chain. -/
def attemptResult (env : DiscoveryEnv) (mint : String) : Attempt → Option Nat
  | (.supply, some h) => env.tokenSupply h
  | (.parsed, some h) => env.parsedInfo h
  | (.rawLayout, some h) => (env.rawData h).bind fun bytes => bytes.get? DEC_OFFSET
  | (.staticTable, _) => STATIC_DEC.lookup mint
  | (_, none) => none

/-- First loop of `_discover_decimals`: for each client in order, try the
token-supply query, then the jsonParsed account-info query.  Returns the
result and the trace of attempts made. -/
def phase12 (env : DiscoveryEnv) : List Handle → Option Nat × List Attempt
  | [] => (none, [])
  | h :: rest =>
    match env.tokenSupply h with
    | some d => (some d, [(.supply, some h)])
    | none =>
      match env.parsedInfo h with
      | some d => (some d, [(.supply, some h), (.parsed, some h)])
      | none =>
        let (r, t) := phase12 env rest
        (r, (.supply, some h) :: (.parsed, some h) :: t)

/-- Second loop of `_discover_decimals`: for each client in order, fetch the
raw base64 account data and read the byte at `DEC_OFFSET` (an index past the
end raises and is swallowed, so the chain advances). -/
def phase3 (env : DiscoveryEnv) : List Handle → Option Nat × List Attempt
  | [] => (none, [])
  | h :: rest =>
    match (env.rawData h).bind (fun bytes => bytes.get? DEC_OFFSET) with
    | some d => (some d, [(.rawLayout, some h)])
    | none =>
      let (r, t) := phase3 env rest
      (r, (.rawLayout, some h) :: t)

/-- `TokenTools._discover_decimals`: two loops over `(primary, backup)`
(supply then parsed per client, then raw layout per client), then the static
table; `none` models the final `RuntimeError`.  Also returns the ordered
trace of attempts executed. -/
def discoverDecimals (env : DiscoveryEnv) (mint : String) : Option Nat × List Attempt :=
  match phase12 env [.primary, .backup] with
  | (some d, t) => (some d, t)
  | (none, t1) =>
    match phase3 env [.primary, .backup] with
    | (some d, t2) => (some d, t1 ++ t2)
    | (none, t2) =>
      match STATIC_DEC.lookup mint with
      | some d => (some d, t1 ++ t2 ++ [(.staticTable, none)])
      | none => (none, t1 ++ t2 ++ [(.staticTable, none)])

/-- First success along a list of attempts, with the trace of attempts made. -/
def firstSuccess (env : DiscoveryEnv) (mint : String) : List Attempt → Option Nat × List Attempt
  | [] => (none, [])
  | a :: rest =>
    match attemptResult env mint a with
    | some d => (some d, [a])
    | none =>
      let (r, t) := firstSuccess env mint rest
      (r, a :: t)

/-- The attempt order the code actually executes. -/
def codeOrderAttempts : List Attempt :=
  [(.supply, some .primary), (.parsed, some .primary),
   (.supply, some .backup), (.parsed, some .backup),
   (.rawLayout, some .primary), (.rawLayout, some .backup),
   (.staticTable, none)]

/-- Modelled from the spec: the attempt order claimed by the specification,
"each step attempted against primary then backup before advancing" —
every strategy visits both handles before the next strategy starts. -/
def specOrderAttempts : List Attempt :=
  [(.supply, some .primary), (.supply, some .backup),
   (.parsed, some .primary), (.parsed, some .backup),
   (.rawLayout, some .primary), (.rawLayout, some .backup),
   (.staticTable, none)]

/-- Modelled from the spec: decimal discovery in the spec-claimed order,
first success wins. -/
def discoverDecimalsSpecOrder (env : DiscoveryEnv) (mint : String) : Option Nat × List Attempt :=
  firstSuccess env mint specOrderAttempts

/-- Network attempts in a trace: every attempt that touches an RPC handle. -/
def netAttempts (t : List Attempt) : Nat := (t.filter fun a => a.2.isSome).length

/-- Result of one `TokenTools.decimals` call: the value (`none` models the
propagated `RuntimeError`), the cache afterwards, and how many network
attempts were executed. -/
structure DecResult where
  result : Option Nat
  cache : List (String × Nat)
  networkAttempts : Nat
  deriving DecidableEq, Repr

/-- `TokenTools.decimals`: serve from `_dec_cache` if present, otherwise run
the discovery chain and cache the value on success only. -/
def decimals (env : DiscoveryEnv) (cache : List (String × Nat)) (mint : String) : DecResult :=
  match cache.lookup mint with
  | some d => ⟨some d, cache, 0⟩
  | none =>
    match discoverDecimals env mint with
    | (some d, t) => ⟨some d, (mint, d) :: cache, netAttempts t⟩
    | (none, t) => ⟨none, cache, netAttempts t⟩

/-! ## jupiter_client.py -/

/-- One leg of a route plan; the fields `total_fees_ui` reads, both optional
(`leg.get(..., 0)`). -/
structure Leg where
  feeAmount : Option Nat
  feeMintDecimals : Option Nat
  deriving DecidableEq, Repr

/-- The `priceImpactPct` field of a quote: absent (`KeyError`), present but
not parsable by `float()` (`ValueError`), or parsing to a double value. -/
inductive PIField
  | absent
  | unparsable
  | val (q : ℚ)
  deriving DecidableEq, Repr

/-- A quote dictionary: the fields the client reads, each optional. -/
structure Quote where
  inAmount : Option Nat
  outAmount : Option Nat
  routePlan : Option (List Leg)
  priceImpactPct : PIField
  deriving DecidableEq, Repr

/-- The raw JSON response of the quote endpoint: an optional `data` list of
quotes, and the response itself viewed as a quote dictionary. -/
structure QuoteResp where
  data : Option (List Quote)
  top : Quote
  deriving DecidableEq, Repr

/-- Error taxonomy of the spec, as raised by the embedded operations. -/
inductive Err
  | validation            -- ValueError("Amount must be positive")
  | swapUnavailable       -- RuntimeError from get_quote / "No swap route"
  | upstream              -- RPC / transport / confirmation failures
  | signFailure           -- signing failure propagated from the signer
  | attributeUnavailable  -- RuntimeError("Decimals unavailable ...")
  deriving DecidableEq, Repr

/-- `jupiter_client.get_quote` response unwrapping: a truthy `data` list
yields its first element; otherwise the response itself is returned when it
carries `inAmount`, `outAmount` and `routePlan`; otherwise
`RuntimeError("Quote unavailable")`. -/
def get_quote (rsp : QuoteResp) : Except Err Quote :=
  match rsp.data with
  | some (q :: _) => .ok q
  | _ =>
    if rsp.top.inAmount.isSome && rsp.top.outAmount.isSome && rsp.top.routePlan.isSome then
      .ok rsp.top
    else
      .error .swapUnavailable

/-- The output-amount field of the quote response as the session will see it:
that of the first `data` element when a truthy `data` list is present,
otherwise that of the response itself. -/
def respOutAmount (rsp : QuoteResp) : Option Nat :=
  match rsp.data with
  | some (q :: _) => q.outAmount
  | _ => rsp.top.outAmount

/-- `jupiter_client.price_impact_pct`: `float(quote["priceImpactPct"])`
under `try/except`, so a missing or unparsable field gives `None`. -/
def price_impact_pct (q : Quote) : Option ℚ :=
  match q.priceImpactPct with
  | .val x => some x
  | _ => none

/-- `jupiter_client.total_fees_ui`: sum over the route plan of
`float(feeAmount) / 10 ** feeMintDecimals` in float arithmetic,
starting at `0.0`; missing `routePlan` gives the empty sum. -/
def total_fees_ui (q : Quote) : ℚ :=
  (q.routePlan.getD []).foldl
    (fun total leg =>
      floatAdd total
        (floatDiv (floatOfNat (leg.feeAmount.getD 0))
          (floatOfNat (10 ^ leg.feeMintDecimals.getD 0))))
    0

/-! ## session.py — SolanaSession.swap and the fee helpers -/

/-- The shapes `swap` handles for the `get_transaction` response
(session.py lines 84-93). -/
inductive TxResp
  | noValue                     -- tx_meta.value is None → fee 0
  | oldShape (fee : Nat)        -- val.meta.fee            (< solana-py 0.28)
  | newShape (fee : Nat)        -- val.transaction.meta.fee (>= 0.30)
  | dictShape (fee : Option Nat)  -- to_json fallback, "meta"/"fee" may be absent
  deriving DecidableEq, Repr

/-- The defensive fee extraction of session.py lines 84-93. -/
def extractFee : TxResp → Nat
  | .noValue => 0
  | .oldShape f => f
  | .newShape f => f
  | .dictShape f => f.getD 0

/-- The value of `get_latest_blockhash` inside `base_sig_fee_lamports`:
the fee-per-signature field is only present on newer RPC nodes. -/
structure LatestInfo where
  feePerSignature : Option Nat
  blockhash : Nat
  deriving DecidableEq, Repr

/-- Inputs of `base_sig_fee_lamports`: each RPC call either raises
(`.error ()`) or returns a value; `get_fee_for_message` may also return a
`None` value (`.ok none`). -/
structure FeeEnv where
  latest : Except Unit LatestInfo
  feeForMessage : Except Unit (Option Nat)

/-- Network-visible steps of one `swap()` invocation, in execution order. -/
inductive Ev
  | evDecimals (mint : String)  -- TokenTools.decimals (may hit the chain)
  | evQuote                     -- GET quote
  | evBuild                     -- POST swap (build transaction)
  | evSign                      -- sign_swap_tx (local, listed for ordering)
  | evSubmit                    -- send_raw_transaction
  | evConfirm                   -- confirm_transaction
  | evTxLookup                  -- get_transaction
  | evLatestBlockhash           -- get_latest_blockhash (base fee path)
  | evFeeForMessage             -- get_fee_for_message (base fee path)
  deriving DecidableEq, Repr

/-- `SolanaSession.base_sig_fee_lamports`: read `fee_per_signature` off the
latest blockhash if the attribute exists, else simulate the fee of an empty
message; any exception, and a `None` simulation result, fall through to the
hardcoded 5000 lamports.  Also returns the RPC calls made. -/
def base_sig_fee_lamports (fe : FeeEnv) : Nat × List Ev :=
  match fe.latest with
  | .error _ => (5000, [.evLatestBlockhash])
  | .ok l =>
    match l.feePerSignature with
    | some f => (f, [.evLatestBlockhash])
    | none =>
      match fe.feeForMessage with
      | .error _ => (5000, [.evLatestBlockhash, .evFeeForMessage])
      | .ok none => (5000, [.evLatestBlockhash, .evFeeForMessage])
      | .ok (some v) => (v, [.evLatestBlockhash, .evFeeForMessage])

/-- session.py line 104: `priority_fee = max(lamports_fee - base_fee, 0)`. -/
def priorityFee (lamportsFee baseFee : Nat) : ℤ :=
  max ((lamportsFee : ℤ) - (baseFee : ℤ)) 0

/-- Everything one `swap()` invocation can observe from the outside world.
`decimalsOf` abstracts `TokenTools.decimals` (cache plus discovery chain);
`none` means the discovery chain was exhausted and raised. -/
structure SwapEnv where
  decimalsOf : String → Option Nat
  quoteResp : Option QuoteResp   -- none: quote HTTP request raised
  buildOk : Bool                 -- build_swap_tx HTTP request succeeded
  signOk : Bool                  -- sign_swap_tx succeeded
  sendResult : Option Nat        -- send_raw_transaction → signature; none: raised
  confirmOk : Bool               -- confirm_transaction succeeded
  txLookup : Option TxResp       -- get_transaction; none: raised
  fee : FeeEnv

/-- The result dictionary returned by a successful `swap()`. -/
structure SwapResult where
  signature : Nat
  dst_ui : ℚ
  route_fees_ui : ℚ
  priceImpact : Option ℚ
  routePlan : Option (List Leg)
  solNetworkFee : ℚ
  priorityFeeSol : ℚ
  deriving DecidableEq, Repr

/-- `SolanaSession.swap(src, dst, src_ui)`, with the ordered trace of steps
executed before returning or raising.  Mirrors session.py lines 56-119:
validation, source decimals, base-unit conversion, quote, out-amount check,
build, sign, submit, confirm, destination decimals, fee reconciliation. -/
def swap (env : SwapEnv) (src dst : String) (srcUi : ℚ) : Except Err SwapResult × List Ev :=
  if srcUi ≤ 0 then (.error .validation, [])
  else
    match env.decimalsOf src with
    | none => (.error .attributeUnavailable, [.evDecimals src])
    | some dSrc =>
      let _lamports : ℤ := uiToBase srcUi dSrc
      match env.quoteResp with
      | none => (.error .upstream, [.evDecimals src, .evQuote])
      | some rsp =>
        match get_quote rsp with
        | .error e => (.error e, [.evDecimals src, .evQuote])
        | .ok quote =>
          match quote.outAmount with
          | none => (.error .swapUnavailable, [.evDecimals src, .evQuote])
          | some outAmt =>
            if env.buildOk = false then
              (.error .upstream, [.evDecimals src, .evQuote, .evBuild])
            else if env.signOk = false then
              (.error .signFailure, [.evDecimals src, .evQuote, .evBuild, .evSign])
            else
              match env.sendResult with
              | none =>
                (.error .upstream,
                 [.evDecimals src, .evQuote, .evBuild, .evSign, .evSubmit])
              | some sig =>
                if env.confirmOk = false then
                  (.error .upstream,
                   [.evDecimals src, .evQuote, .evBuild, .evSign, .evSubmit, .evConfirm])
                else
                  match env.decimalsOf dst with
                  | none =>
                    (.error .attributeUnavailable,
                     [.evDecimals src, .evQuote, .evBuild, .evSign, .evSubmit,
                      .evConfirm, .evDecimals dst])
                  | some dDst =>
                    let dstUi := floatDiv (floatOfNat outAmt) (floatOfNat (10 ^ dDst))
                    let feesUi := total_fees_ui quote
                    let pImpact := price_impact_pct quote
                    match env.txLookup with
                    | none =>
                      (.error .upstream,
                       [.evDecimals src, .evQuote, .evBuild, .evSign, .evSubmit,
                        .evConfirm, .evDecimals dst, .evTxLookup])
                    | some txr =>
                      let lamportsFee := extractFee txr
                      let feeOut := base_sig_fee_lamports env.fee
                      let prio := priorityFee lamportsFee feeOut.1
                      let solFee := floatDiv (floatOfNat lamportsFee) (floatOfNat (10 ^ 9))
                      let prioSol := floatDiv (roundDouble (prio : ℚ)) (floatOfNat (10 ^ 9))
                      (.ok { signature := sig, dst_ui := dstUi, route_fees_ui := feesUi,
                             priceImpact := pImpact, routePlan := quote.routePlan,
                             solNetworkFee := solFee, priorityFeeSol := prioSol },
                       [.evDecimals src, .evQuote, .evBuild, .evSign, .evSubmit,
                        .evConfirm, .evDecimals dst, .evTxLookup] ++ feeOut.2)

/-! ## rpc_pool.py — sequential model of get_blockhash (freshness invariant) -/

/-- The mutable token state of `RpcPool`: `_blockhash` and `_expiry`
(constructor sets them to `None` and `0.0`). -/
structure PoolSt where
  blockhash : Option Nat
  expiry : ℚ
  deriving DecidableEq, Repr

/-- `RpcPool.__init__` token state. -/
def initPool : PoolSt := ⟨none, 0⟩

/-- One `get_blockhash()` call: the wall-clock time of the expiry check, how
long the synchronous refresh network call takes if one is triggered, and its
outcome (`none` = the RPC raises). -/
structure CallSpec where
  t : ℚ
  dur : ℚ
  outcome : Option Nat
  deriving DecidableEq, Repr

/-- `RpcPool.get_blockhash`: if `time.time() >= self._expiry` run `_refresh`
(which sets `_expiry = time.time() + 90` at completion time) and propagate its
failure; otherwise return the cached hash.  On success returns the hash, the
time of return, and the state afterwards. -/
def get_blockhash (c : CallSpec) (st : PoolSt) : Except Unit (Nat × ℚ × PoolSt) :=
  if st.expiry ≤ c.t then
    match c.outcome with
    | none => .error ()
    | some h => .ok (h, c.t + c.dur, ⟨some h, c.t + c.dur + 90⟩)
  else
    match st.blockhash with
    | some h => .ok (h, c.t, st)
    | none => .error ()  -- the `assert self._blockhash` (unreachable from init)

/-- Run a sequence of `get_blockhash()` calls, threading the pool state, and
collect for every value actually returned the pair
(time of return, `_expiry` at that moment). -/
def runPool (st : PoolSt) : List CallSpec → List (ℚ × ℚ)
  | [] => []
  | c :: rest =>
    match get_blockhash c st with
    | .error _ => runPool st rest
    | .ok (_, rt, st') => (rt, st'.expiry) :: runPool st' rest

/-! ## rpc_pool.py — two concurrent get_blockhash calls (single-flight) -/

/-- Control location of one concurrent `get_blockhash()` caller. -/
inductive PC
  | ready       -- about to run the `time.time() >= self._expiry` check
  | acquire     -- observed an expired token, waiting on `self._lock`
  | refreshing  -- holds the lock, network call in flight
  | done        -- returned
  deriving DecidableEq, Repr

/-- Machine state for two concurrent `get_blockhash()` calls (callers
`false` and `true`) at one instant of wall-clock time (no time passes during
the scenario, so freshness never lapses again once refreshed).
`viaA`/`viaB` are ghost flags recording that a caller observed an expired
token at its check; `netCalls` counts executed refresh network calls.  The
`n`-th refresh returns blockhash value `n`. -/
structure MSt where
  pcA : PC
  pcB : PC
  lockBy : Option Bool
  expired : Bool
  blockhash : Option Nat
  netCalls : Nat
  viaA : Bool
  viaB : Bool
  resA : Option Nat
  resB : Option Nat
  deriving DecidableEq, Repr

/-- Both callers about to check, cached token expired (as after the TTL
lapsed), no refresh in flight. -/
def initM : MSt :=
  ⟨.ready, .ready, none, true, none, 0, false, false, none, none⟩

def pcOf (who : Bool) (st : MSt) : PC := if who then st.pcB else st.pcA

def setPc (who : Bool) (p : PC) (st : MSt) : MSt :=
  if who then { st with pcB := p } else { st with pcA := p }

def setVia (who : Bool) (st : MSt) : MSt :=
  if who then { st with viaB := true } else { st with viaA := true }

def setRes (who : Bool) (r : Option Nat) (st : MSt) : MSt :=
  if who then { st with resB := r } else { st with resA := r }

/-- One atomic step of a caller, following `get_blockhash`/`_refresh`:
check the expiry (a valid token is returned at once); wait for the lock;
with the lock held run the refresh network call unconditionally — the code
never re-checks the expiry after acquiring the lock — then publish the new
hash, release the lock and return it.  A caller that cannot move (lock held
elsewhere, or already done) leaves the state unchanged. -/
def step (who : Bool) (st : MSt) : MSt :=
  match pcOf who st with
  | .ready =>
    if st.expired then setVia who (setPc who .acquire st)
    else setRes who st.blockhash (setPc who .done st)
  | .acquire =>
    match st.lockBy with
    | none => setPc who .refreshing { st with lockBy := some who }
    | some _ => st
  | .refreshing =>
    let h := st.netCalls + 1
    setRes who (some h)
      (setPc who .done
        { st with lockBy := none, expired := false,
                  blockhash := some h, netCalls := st.netCalls + 1 })
  | .done => st

/-- Run a schedule (the interleaving chosen by the event loop). -/
def runSched (st : MSt) : List Bool → MSt
  | [] => st
  | w :: rest => runSched (step w st) rest

/-- Refresh contribution of one caller to the network-call count. -/
def contrib (pc : PC) (via : Bool) : Nat :=
  if pc = .done ∧ via = true then 1 else 0

/-- Inductive invariant of the two-caller machine: a refreshing caller holds
the lock; a caller past its check on the expired path has its ghost flag set;
the network-call count equals the completed refresh contributions. -/
def MInv (st : MSt) : Prop :=
  (st.pcA = .refreshing → st.lockBy = some false) ∧
  (st.pcB = .refreshing → st.lockBy = some true) ∧
  ((st.pcA = .acquire ∨ st.pcA = .refreshing) → st.viaA = true) ∧
  ((st.pcB = .acquire ∨ st.pcB = .refreshing) → st.viaB = true) ∧
  (st.pcA = .ready → st.viaA = false) ∧
  (st.pcB = .ready → st.viaB = false) ∧
  st.netCalls = contrib st.pcA st.viaA + contrib st.pcB st.viaB

/-! ## Theorems -/

/-- C4: for every actual network fee and baseline per-signature fee, the
priority fee computed by swap() equals max(actualFee − baseFee, 0): it is
never negative, equals the difference when the actual fee covers the base
fee and 0 otherwise; in particular 7000/5000 ↦ 2000 and 3000/5000 ↦ 0. -/
theorem C4_priority_fee_clamped :
    (∀ a b : Nat, 0 ≤ priorityFee a b) ∧
    (∀ a b : Nat, (b : ℤ) ≤ (a : ℤ) → priorityFee a b = (a : ℤ) - (b : ℤ)) ∧
    (∀ a b : Nat, (a : ℤ) ≤ (b : ℤ) → priorityFee a b = 0) ∧
    priorityFee 7000 5000 = 2000 ∧ priorityFee 3000 5000 = 0 := by
  refine ⟨fun a b => le_max_right _ _,
    fun a b h => max_eq_left (by omega),
    fun a b h => max_eq_right (by omega),
    by decide, by decide⟩

/-- Witness for C4 at the concrete fee pairs of the claim. -/
theorem C4_priority_fee_clamped_witness :
    priorityFee 7000 5000 = (7000 : ℤ) - 5000 ∧ priorityFee 3000 5000 = 0 :=
  ⟨C4_priority_fee_clamped.2.1 7000 5000 (by decide),
   C4_priority_fee_clamped.2.2.1 3000 5000 (by decide)⟩

/-- C5: for every input with sourceAmountUI ≤ 0, swap() fails with
ValidationError immediately and its step trace is empty: no decimal lookup,
quote, build, sign or submission takes place. -/
theorem C5_nonpositive_amount (env : SwapEnv) (src dst : String) (srcUi : ℚ)
    (h : srcUi ≤ 0) :
    swap env src dst srcUi = (.error .validation, []) := by
  unfold swap
  rw [if_pos h]

/-- Witness for C5 at amount 0 and a fully failing environment. -/
theorem C5_nonpositive_amount_witness :
    swap ⟨fun _ => none, none, false, false, none, false, none, ⟨.error (), .error ()⟩⟩
      "srcMint" "dstMint" 0 = (.error .validation, []) :=
  C5_nonpositive_amount _ "srcMint" "dstMint" 0 (le_refl 0)

/-- C8: the baseline per-signature fee is resolved by the nested fallback:
(a) the fee-per-signature field of the latest blockhash when present;
(b) otherwise the simulated fee of an empty message when it returns a value;
(c) otherwise — including any exception in (a) or (b) and a None simulation
value — the hardcoded 5000 lamports, without raising. -/
theorem C8_base_fee_fallback :
    (∀ (fe : FeeEnv) (l : LatestInfo) (f : Nat), fe.latest = .ok l →
      l.feePerSignature = some f →
      base_sig_fee_lamports fe = (f, [.evLatestBlockhash])) ∧
    (∀ (fe : FeeEnv) (l : LatestInfo) (v : Nat), fe.latest = .ok l →
      l.feePerSignature = none → fe.feeForMessage = .ok (some v) →
      base_sig_fee_lamports fe = (v, [.evLatestBlockhash, .evFeeForMessage])) ∧
    (∀ fe : FeeEnv, fe.latest = .error () →
      base_sig_fee_lamports fe = (5000, [.evLatestBlockhash])) ∧
    (∀ (fe : FeeEnv) (l : LatestInfo), fe.latest = .ok l →
      l.feePerSignature = none → fe.feeForMessage = .error () →
      base_sig_fee_lamports fe = (5000, [.evLatestBlockhash, .evFeeForMessage])) ∧
    (∀ (fe : FeeEnv) (l : LatestInfo), fe.latest = .ok l →
      l.feePerSignature = none → fe.feeForMessage = .ok none →
      base_sig_fee_lamports fe = (5000, [.evLatestBlockhash, .evFeeForMessage])) := by
  refine ⟨?_, ?_, ?_, ?_, ?_⟩ <;> intros <;> simp_all [base_sig_fee_lamports]

/-- Witness for C8: one concrete environment per branch of the fallback. -/
theorem C8_base_fee_fallback_witness :
    base_sig_fee_lamports ⟨.ok ⟨some 4900, 1⟩, .error ()⟩ = (4900, [.evLatestBlockhash]) ∧
    base_sig_fee_lamports ⟨.ok ⟨none, 1⟩, .ok (some 6000)⟩ =
      (6000, [.evLatestBlockhash, .evFeeForMessage]) ∧
    base_sig_fee_lamports ⟨.error (), .ok (some 6000)⟩ = (5000, [.evLatestBlockhash]) ∧
    base_sig_fee_lamports ⟨.ok ⟨none, 2⟩, .error ()⟩ =
      (5000, [.evLatestBlockhash, .evFeeForMessage]) ∧
    base_sig_fee_lamports ⟨.ok ⟨none, 3⟩, .ok none⟩ =
      (5000, [.evLatestBlockhash, .evFeeForMessage]) :=
  ⟨C8_base_fee_fallback.1 _ _ _ rfl rfl,
   C8_base_fee_fallback.2.1 _ _ _ rfl rfl rfl,
   C8_base_fee_fallback.2.2.1 _ rfl,
   C8_base_fee_fallback.2.2.2.1 _ _ rfl rfl rfl,
   C8_base_fee_fallback.2.2.2.2 _ _ rfl rfl rfl⟩

/-- Helper for C9: a cache hit is served as-is with zero network attempts. -/
theorem decimals_of_cached (env : DiscoveryEnv) (cache : List (String × Nat))
    (mint : String) (d : Nat) (hc : cache.lookup mint = some d) :
    decimals env cache mint = ⟨some d, cache, 0⟩ := by
  unfold decimals
  rw [hc]

/-- Helper for C9: a successful call leaves the mint resolvable in the
resulting cache. -/
theorem decimals_result_cached (env : DiscoveryEnv) (cache : List (String × Nat))
    (mint : String) (d : Nat) (hres : (decimals env cache mint).result = some d) :
    ((decimals env cache mint).cache).lookup mint = some d := by
  unfold decimals at hres ⊢
  cases hc : cache.lookup mint with
  | some d0 =>
    rw [hc] at hres
    simp at hres
    rw [hc, hres]
  | none =>
    rw [hc] at hres
    cases hd : discoverDecimals env mint with
    | mk r t =>
      rw [hd] at hres
      cases r with
      | none => exact absurd hres (by simp)
      | some d0 =>
        have hd0 : d0 = d := by simpa using hres
        subst hd0
        simp [List.lookup]

/-- Helper for C9: no `decimals` call evicts or overwrites an existing
cache entry. -/
theorem decimals_preserves (env : DiscoveryEnv) (cache : List (String × Nat))
    (mint mint' : String) (d : Nat) (hc : cache.lookup mint = some d) :
    ((decimals env cache mint').cache).lookup mint = some d := by
  unfold decimals
  cases hc' : cache.lookup mint' with
  | some d0 => simpa using hc
  | none =>
    cases hd : discoverDecimals env mint' with
    | mk r t =>
      cases r with
      | none => simpa using hc
      | some d0 =>
        have hne : (mint == mint') = false := by
          cases h : mint == mint' with
          | false => rfl
          | true =>
            have heq : mint = mint' := beq_iff_eq.mp h
            rw [heq, hc'] at hc
            exact absurd hc (by simp)
        simp [List.lookup, hne, hc]

/-- C9: after a first successful resolution, a repeated `decimals` call for
the same mint — under any later network environment — returns the identical
cached value, performs zero network attempts and leaves the cache unchanged;
moreover no `decimals` call (for any mint) ever evicts or overwrites an
existing cache entry. -/
theorem C9_decimals_idempotent :
    (∀ (env env' : DiscoveryEnv) (cache : List (String × Nat)) (mint : String) (d : Nat),
      (decimals env cache mint).result = some d →
      decimals env' (decimals env cache mint).cache mint =
        ⟨some d, (decimals env cache mint).cache, 0⟩) ∧
    (∀ (env : DiscoveryEnv) (cache : List (String × Nat)) (mint mint' : String) (d : Nat),
      cache.lookup mint = some d →
      ((decimals env cache mint').cache).lookup mint = some d) :=
  ⟨fun env env' cache mint d hres =>
    decimals_of_cached env' _ mint d (decimals_result_cached env cache mint d hres),
   fun env cache mint mint' d hc => decimals_preserves env cache mint mint' d hc⟩

/-- Witness for C9: a cached mint is served unchanged with zero network
attempts under a different environment, and survives a discovery for a
different mint. -/
theorem C9_decimals_idempotent_witness :
    decimals ⟨fun _ => some 5, fun _ => none, fun _ => none⟩
      (decimals ⟨fun _ => none, fun _ => none, fun _ => none⟩ [("m", 6)] "m").cache "m" =
      ⟨some 6, (decimals ⟨fun _ => none, fun _ => none, fun _ => none⟩ [("m", 6)] "m").cache, 0⟩ ∧
    ((decimals ⟨fun _ => some 9, fun _ => none, fun _ => none⟩ [("m", 6)] "other").cache).lookup "m" =
      some 6 :=
  ⟨C9_decimals_idempotent.1 _ _ [("m", 6)] "m" 6 (by decide),
   C9_decimals_idempotent.2 _ [("m", 6)] "m" "other" 6 (by decide)⟩

/-- C6: whenever the quote response carries no output-amount field — whether
in its truthy `data` head or in the response body itself — `swap()` fails
with SwapUnavailable and its step trace stops at the quote request: no
transaction is built, signed or submitted. -/
theorem C6_missing_outAmount (env : SwapEnv) (src dst : String) (srcUi : ℚ)
    (d : Nat) (rsp : QuoteResp)
    (hpos : ¬ srcUi ≤ 0) (hdec : env.decimalsOf src = some d)
    (hrsp : env.quoteResp = some rsp) (hout : respOutAmount rsp = none) :
    swap env src dst srcUi = (.error .swapUnavailable, [.evDecimals src, .evQuote]) := by
  unfold swap
  rw [if_neg hpos, hdec, hrsp]
  rcases rsp with ⟨data, top⟩
  rcases data with _ | ⟨_ | ⟨q, qs⟩⟩ <;>
    simp_all [respOutAmount, get_quote]

/-- Witness for C6 at a concrete environment whose quote response has no
output amount. -/
theorem C6_missing_outAmount_witness :
    swap ⟨fun _ => some 6,
          some ⟨none, ⟨some 100, none, some [], .absent⟩⟩,
          true, true, some 42, true, some (.newShape 7000),
          ⟨.error (), .error ()⟩⟩ "s" "d" 1 =
      (.error .swapUnavailable, [.evDecimals "s", .evQuote]) :=
  C6_missing_outAmount _ "s" "d" 1 6 ⟨none, ⟨some 100, none, some [], .absent⟩⟩
    (by norm_num) rfl rfl rfl

/-- Helper for C7: a single successful `get_blockhash` returns at a moment
strictly before the post-state expiry. -/
theorem get_blockhash_valid (c : CallSpec) (st : PoolSt) (h : Nat) (rt : ℚ)
    (st' : PoolSt) (hgb : get_blockhash c st = .ok (h, rt, st')) :
    rt < st'.expiry := by
  unfold get_blockhash at hgb
  split at hgb
  · -- expired: synchronous refresh path
    split at hgb
    · exact Except.noConfusion hgb
    · simp only [Except.ok.injEq, Prod.mk.injEq] at hgb
      obtain ⟨-, hrt, hst⟩ := hgb
      rw [← hrt, ← hst]
      show c.t + c.dur < c.t + c.dur + 90
      linarith
  · -- cached path: the check guarantees strict validity
    rename_i hexp
    split at hgb
    · simp only [Except.ok.injEq, Prod.mk.injEq] at hgb
      obtain ⟨-, hrt, hst⟩ := hgb
      rw [← hrt, ← hst]
      exact lt_of_not_le hexp
    · exact Except.noConfusion hgb

/-- C7: over every sequence of `get_blockhash()` calls from every starting
state, each value actually returned is returned strictly before the pool's
expiry at that moment — the remaining validity at the moment of return is
always positive, because an expired (or never-initialised) token forces a
synchronous refresh before the return. -/
theorem C7_returned_token_valid (calls : List CallSpec) (st : PoolSt)
    (p : ℚ × ℚ) (hp : p ∈ runPool st calls) : p.1 < p.2 := by
  induction calls generalizing st with
  | nil => simp [runPool] at hp
  | cons c rest ih =>
    unfold runPool at hp
    cases hgb : get_blockhash c st with
    | error e => rw [hgb] at hp; exact ih st hp
    | ok v =>
      obtain ⟨h, rt, st'⟩ := v
      rw [hgb] at hp
      rcases List.mem_cons.mp hp with h1 | h2
      · rw [h1]
        exact get_blockhash_valid c st h rt st' hgb
      · exact ih st' h2

/-- Witness for C7: a single call at time 0 on the freshly constructed pool
triggers a synchronous refresh and returns at time 1 with expiry 91. -/
theorem C7_returned_token_valid_witness :
    ((1 : ℚ), (91 : ℚ)) ∈ runPool initPool [⟨0, 1, some 7⟩] ∧ (1 : ℚ) < 91 :=
  ⟨by decide, C7_returned_token_valid [⟨0, 1, some 7⟩] initPool (1, 91) (by decide)⟩

/-- C10: when the quote carries no parsable priceImpactPct but everything
else succeeds, swap() does not fail: it returns a result whose price-impact
field is `none` while every other field is still produced. -/
theorem C10_unparsable_price_impact (env : SwapEnv) (src dst : String) (srcUi : ℚ)
    (dSrc dDst : Nat) (rsp : QuoteResp) (q : Quote) (outAmt sig : Nat) (txr : TxResp)
    (hpos : ¬ srcUi ≤ 0) (hsrc : env.decimalsOf src = some dSrc)
    (hrsp : env.quoteResp = some rsp) (hq : get_quote rsp = .ok q)
    (hout : q.outAmount = some outAmt) (hbuild : env.buildOk = true)
    (hsign : env.signOk = true) (hsend : env.sendResult = some sig)
    (hconf : env.confirmOk = true) (hdst : env.decimalsOf dst = some dDst)
    (htx : env.txLookup = some txr) (hpi : price_impact_pct q = none) :
    swap env src dst srcUi =
      (.ok { signature := sig,
             dst_ui := floatDiv (floatOfNat outAmt) (floatOfNat (10 ^ dDst)),
             route_fees_ui := total_fees_ui q,
             priceImpact := none,
             routePlan := q.routePlan,
             solNetworkFee := floatDiv (floatOfNat (extractFee txr)) (floatOfNat (10 ^ 9)),
             priorityFeeSol :=
               floatDiv (roundDouble
                 ((priorityFee (extractFee txr) (base_sig_fee_lamports env.fee).1 : ℤ) : ℚ))
                 (floatOfNat (10 ^ 9)) },
       [.evDecimals src, .evQuote, .evBuild, .evSign, .evSubmit, .evConfirm,
        .evDecimals dst, .evTxLookup] ++ (base_sig_fee_lamports env.fee).2) := by
  unfold swap
  rw [if_neg hpos]
  simp only [hsrc, hrsp, hq, hout, hbuild, hsign, hsend, hconf, hdst, htx, hpi,
    Bool.true_eq_false, if_false]

/-- Witness for C10 at a fully concrete environment whose quote has an
unparsable priceImpactPct field. -/
theorem C10_unparsable_price_impact_witness :
    swap ⟨fun m => if m = "s" then some 6 else some 9,
          some ⟨some [⟨some 100, some 250, some [], .unparsable⟩], ⟨none, none, none, .absent⟩⟩,
          true, true, some 42, true, some (.newShape 7000),
          ⟨.ok ⟨some 5000, 11⟩, .error ()⟩⟩ "s" "d" 1 =
      (.ok { signature := 42,
             dst_ui := floatDiv (floatOfNat 250) (floatOfNat (10 ^ 9)),
             route_fees_ui := 0,
             priceImpact := none,
             routePlan := some [],
             solNetworkFee := floatDiv (floatOfNat 7000) (floatOfNat (10 ^ 9)),
             priorityFeeSol := floatDiv (roundDouble ((2000 : ℤ) : ℚ)) (floatOfNat (10 ^ 9)) },
       [.evDecimals "s", .evQuote, .evBuild, .evSign, .evSubmit, .evConfirm,
        .evDecimals "d", .evTxLookup] ++ [.evLatestBlockhash]) := by
  have h := C10_unparsable_price_impact
    ⟨fun m => if m = "s" then some 6 else some 9,
     some ⟨some [⟨some 100, some 250, some [], .unparsable⟩], ⟨none, none, none, .absent⟩⟩,
     true, true, some 42, true, some (.newShape 7000),
     ⟨.ok ⟨some 5000, 11⟩, .error ()⟩⟩ "s" "d" 1 6 9
    ⟨some [⟨some 100, some 250, some [], .unparsable⟩], ⟨none, none, none, .absent⟩⟩
    ⟨some 100, some 250, some [], .unparsable⟩ 250 42 (.newShape 7000)
    (by norm_num) (by simp) rfl rfl rfl rfl rfl rfl rfl (by simp) rfl rfl
  simpa [total_fees_ui, extractFee, base_sig_fee_lamports, priorityFee] using h

/-- C2 counterexample: an environment where the supply query fails on the
primary but would succeed on the backup (with value 9), while the parsed
account-info query succeeds on the primary (with value 5).  The code tries
supply and parsed on the primary before touching the backup, so it answers 5
and its attempt trace advances to strategy 2 on the primary before strategy 1
has visited the backup — the spec-claimed order would answer 9. -/
theorem C2_counterexample :
    (discoverDecimals
        ⟨fun h => match h with | .primary => none | .backup => some 9,
         fun h => match h with | .primary => some 5 | .backup => none,
         fun _ => none⟩ "m").1 = some 5 ∧
    (discoverDecimals
        ⟨fun h => match h with | .primary => none | .backup => some 9,
         fun h => match h with | .primary => some 5 | .backup => none,
         fun _ => none⟩ "m").2 =
      [(.supply, some .primary), (.parsed, some .primary)] ∧
    (discoverDecimalsSpecOrder
        ⟨fun h => match h with | .primary => none | .backup => some 9,
         fun h => match h with | .primary => some 5 | .backup => none,
         fun _ => none⟩ "m").1 = some 9 ∧
    (discoverDecimals
        ⟨fun h => match h with | .primary => none | .backup => some 9,
         fun h => match h with | .primary => some 5 | .backup => none,
         fun _ => none⟩ "m").1 ≠
      (discoverDecimalsSpecOrder
        ⟨fun h => match h with | .primary => none | .backup => some 9,
         fun h => match h with | .primary => some 5 | .backup => none,
         fun _ => none⟩ "m").1 := by
  refine ⟨by decide, by decide, by decide, by decide⟩

/-- C2 amended: the chain tries strategies 1 and 2 as a pair per handle —
supply then parsed on the primary, supply then parsed on the backup — then
the raw layout on the primary then the backup, then the static table; the
first success is returned, and the trace is exactly the prefix of that order
up to the first success. -/
theorem C2_amended (env : DiscoveryEnv) (mint : String) :
    discoverDecimals env mint = firstSuccess env mint codeOrderAttempts := by
  cases h1 : env.tokenSupply .primary <;>
    cases h2 : env.parsedInfo .primary <;>
      cases h3 : env.tokenSupply .backup <;>
        cases h4 : env.parsedInfo .backup <;>
          cases h5 : (env.rawData Handle.primary).bind (fun a => a[DEC_OFFSET]?) <;>
            cases h6 : (env.rawData Handle.backup).bind (fun a => a[DEC_OFFSET]?) <;>
              cases h7 : STATIC_DEC.lookup mint <;>
                simp [discoverDecimals, phase12, phase3, firstSuccess, codeOrderAttempts,
                  attemptResult, h1, h2, h3, h4, h5, h6, h7]

/-- C3 counterexample: the conversion in session.py line 60 is a binary
floating-point multiplication followed by truncation, not integer
arithmetic.  The UI amount 0.29 (whose binary64 value is
5224175567749775/2^54) at precision 2 converts to 28 base units, while exact
truncation of 0.29 × 10^2 is 29; and at precision 6 it converts to 290000,
while exact truncation of the binary64 input times 10^6 is 289999.  So under
neither reading of "amount × 10^precision truncated toward zero" does the
code compute the claimed integer-arithmetic result. -/
theorem C3_counterexample :
    (uiToBase (roundDouble (29 / 100)) 2 = 28 ∧
     qtrunc ((29 / 100 : ℚ) * 10 ^ 2) = 29) ∧
    (uiToBase (roundDouble (29 / 100)) 6 = 290000 ∧
     qtrunc (roundDouble (29 / 100) * 10 ^ 6) = 289999) :=
  ⟨⟨by decide, by decide⟩, by decide, by decide⟩

/-- C3 amended: swap() converts the UI amount with one float multiplication
and a truncation toward zero, `int(src_ui * 10 ** dec)`; whenever the exact
product of the amount with the float image of 10^precision is representable
in binary64, this agrees with exact truncation of that product — otherwise
it may differ by one base unit, as in the counterexample. -/
theorem C3_amended (ui : ℚ) (p : Nat)
    (hrep : roundDouble (ui * floatOfNat (10 ^ p)) = ui * floatOfNat (10 ^ p)) :
    uiToBase ui p = qtrunc (ui * floatOfNat (10 ^ p)) := by
  unfold uiToBase floatMul
  rw [hrep]

/-- Witness for C3 amended at amount 0.5 and precision 1, where the product
is exactly 5. -/
theorem C3_amended_witness :
    roundDouble ((1 / 2 : ℚ) * floatOfNat (10 ^ 1)) = (1 / 2 : ℚ) * floatOfNat (10 ^ 1) ∧
    uiToBase (1 / 2) 1 = qtrunc ((1 / 2 : ℚ) * floatOfNat (10 ^ 1)) :=
  ⟨by decide, C3_amended (1 / 2) 1 (by decide)⟩

/-- C1 counterexample: in the scenario the claim quantifies over — caller B
observes the expired token while caller A's refresh is in flight — the code
executes two refresh network calls, not one, because `_refresh` never
re-checks the expiry after acquiring the lock; and the two callers return
the results of two different refreshes.  Schedule: A checks, A acquires the
lock and starts refreshing, B checks (expired, refresh in flight), A
finishes, B acquires and runs its own refresh, B finishes. -/
theorem C1_counterexample :
    (runSched initM [false, false]).pcA = .refreshing ∧
    (runSched initM [false, false]).expired = true ∧
    (runSched initM [false, false, true]).pcB = .acquire ∧
    (runSched initM [false, false, true, false, true, true]).pcA = .done ∧
    (runSched initM [false, false, true, false, true, true]).pcB = .done ∧
    (runSched initM [false, false, true, false, true, true]).netCalls = 2 ∧
    ¬ (runSched initM [false, false, true, false, true, true]).netCalls = 1 ∧
    (runSched initM [false, false, true, false, true, true]).resA ≠
      (runSched initM [false, false, true, false, true, true]).resB := by
  decide

/-- Helper for C1: the invariant holds initially. -/
theorem MInv_init : MInv initM := by
  unfold MInv contrib
  decide

/-- Helper for C1: every step of either caller preserves the invariant. -/
theorem MInv_step (who : Bool) (st : MSt) (h : MInv st) : MInv (step who st) := by
  obtain ⟨h1, h2, h3, h4, h5, h6, h7⟩ := h
  rcases st with ⟨pa, pb, lk, ex, bh, nc, va, vb, ra, rb⟩
  cases who <;> cases pa <;> cases pb <;> cases ex <;> cases va <;> cases vb <;>
    rcases lk with - | (- | -) <;>
      simp_all [step, pcOf, setPc, setVia, setRes, contrib, MInv]

/-- Helper for C1: the invariant holds after every schedule. -/
theorem MInv_run (s : List Bool) (st : MSt) (h : MInv st) : MInv (runSched st s) := by
  induction s generalizing st with
  | nil => exact h
  | cons w rest ih => exact ih (step w st) (MInv_step w st h)

/-- C1 amended: the lock makes refreshes mutually exclusive — under every
interleaving at most one of the two callers is mid-refresh — but it does not
deduplicate them: each caller that observed an expired token runs its own
refresh network call after acquiring the lock, so when both callers finish
having observed expiry, exactly two refresh network calls were executed (and
each caller receives the result of its own refresh, not of a single shared
one). -/
theorem C1_amended (s : List Bool) :
    (¬ ((runSched initM s).pcA = .refreshing ∧ (runSched initM s).pcB = .refreshing)) ∧
    ((runSched initM s).pcA = .done → (runSched initM s).pcB = .done →
      (runSched initM s).viaA = true → (runSched initM s).viaB = true →
      (runSched initM s).netCalls = 2) := by
  obtain ⟨h1, h2, h3, h4, h5, h6, h7⟩ := MInv_run s initM MInv_init
  constructor
  · rintro ⟨ha, hb⟩
    rw [h1 ha] at h2
    exact Option.noConfusion (h2 hb) fun hfb => Bool.noConfusion hfb
  · intro da db va vb
    rw [h7, contrib, contrib, da, db, va, vb]
    simp

/-- Witness for C1 amended at the counterexample schedule, where both
callers complete having observed the expired token. -/
theorem C1_amended_witness :
    (runSched initM [false, false, true, false, true, true]).netCalls = 2 :=
  (C1_amended [false, false, true, false, true, true]).2 (by decide) (by decide)
    (by decide) (by decide)
